import Mathlib

/-!
Shallow embedding of the retrieval core of the AI-second-brain repository:
the vector-store search pipeline (`src/vector_store.py`), the RAG engine
(`src/rag_engine.py`), the embedding manager (`src/embeddings.py`) and the
document-comparison feature (`src/document_comparison.py`), together with
theorems settling the specification claims about them.

Python floats are modelled as rationals (`ℚ`), Python strings as Lean
strings (character-indexed, like Python), fallible calls as `Except`
values, and the mutable `VectorStoreManager` / `RAGEngine` objects as
explicit state records.
-/

namespace SecondBrain

/-- Python-style character slice `s[:n]`: the first `n` characters of `s`. -/
def pySlice (s : String) (n : ℕ) : String := ⟨s.data.take n⟩

/-- Round half to even, the tie-breaking rule of Python's built-in `round`. -/
def roundHalfEven (q : ℚ) : ℤ :=
  let f := ⌊q⌋
  let r := q - f
  if r < 1/2 then f
  else if 1/2 < r then f + 1
  else if f % 2 = 0 then f else f + 1

/-- Python `round(q, n)`: round to `n` decimal places, ties to even. -/
def pyRound (n : ℕ) (q : ℚ) : ℚ := (roundHalfEven (q * 10 ^ n) : ℚ) / 10 ^ n

/-- Chunk metadata as used by the retrieval core: the `source` filename and
the optional `page` / `slide` provenance keys. -/
structure Metadata where
  source : Option String
  page : Option Int
  slide : Option Int
deriving DecidableEq

/-- The configuration surface of `config/settings.py` that the retrieval
core reads. -/
structure AppSettings where
  topKRetrieval : ℕ
  similarityThreshold : ℚ
  memoryWindow : ℕ
  embeddingDim : ℕ

/-- The defaults of `config/settings.py`: `TOP_K_RETRIEVAL = 5`,
`SIMILARITY_THRESHOLD = 0.5`, `MEMORY_WINDOW = 3`, `EMBEDDING_DIM = 384`. -/
def defaultSettings : AppSettings := ⟨5, 1/2, 3, 384⟩

/-- A node handed back by the retriever: text, metadata, and a score that
may be absent (`getattr(node, 'score', None)` in `search`). -/
structure Node where
  text : String
  metadata : Metadata
  score : Option ℚ
deriving DecidableEq

/-- A formatted search result, the dictionaries built in
`vector_store.py` lines 157-161. -/
structure SearchResult where
  text : String
  metadata : Metadata
  score : ℚ
deriving DecidableEq

/-- `vector_store.py` lines 152-161: each node becomes a result dict; a
missing (`None`) score defaults to `1.0`. -/
def formatNode (n : Node) : SearchResult := ⟨n.text, n.metadata, n.score.getD 1⟩

/-- The result-formatting loop of `search` (`vector_store.py` lines 150-162). -/
def searchResults (nodes : List Node) : List SearchResult := nodes.map formatNode

/-- The threshold filter of `search` (`vector_store.py` lines 164-172):
keep `r` iff `r['score'] >= SIMILARITY_THRESHOLD`.  The `except` branch
(include on comparison failure) is unreachable in this model because every
score is a rational, exactly as §9 of the spec observes for numeric scores. -/
def filterByThreshold (threshold : ℚ) (rs : List SearchResult) : List SearchResult :=
  rs.filter (fun r => threshold ≤ r.score)

/-- A conversation turn (`rag_engine.py` `ChatMessage`). -/
structure ChatMessage where
  role : String
  content : String
deriving DecidableEq

/-- A formatted source citation, the dictionaries built by
`rag_engine.py` `_format_sources` (lines 201-222); `page` / `slide` are
`none` exactly when the corresponding key is absent from the dict. -/
structure SourceInfo where
  filename : String
  textPreview : String
  score : ℚ
  scorePercent : ℚ
  page : Option Int
  slide : Option Int
deriving DecidableEq

/-- The result of a RAG query (`rag_engine.py` `QueryResult`). -/
structure QueryResult where
  answer : String
  sources : List SourceInfo
  query : String
deriving DecidableEq

/-- One entry of the persistent collection: chunk text, metadata, vector. -/
structure StoredDoc where
  text : String
  metadata : Metadata
  embedding : List ℚ
deriving DecidableEq

/-- The score of a node after the `None → 1.0` defaulting. -/
def nodeScore (n : Node) : ℚ := n.score.getD 1

/-- Nodes ordered by descending (defaulted) score. -/
def scoreGE (a b : Node) : Prop := nodeScore b ≤ nodeScore a

instance : DecidableRel scoreGE := fun a b =>
  inferInstanceAs (Decidable (nodeScore b ≤ nodeScore a))

instance : IsTotal Node scoreGE := ⟨fun a b => le_total (nodeScore b) (nodeScore a)⟩

instance : IsTrans Node scoreGE := ⟨fun _ _ _ hab hbc => le_trans hbc hab⟩

/-- Modelled from the spec: the llama-index retriever constructed in
`vector_store.py` lines 141-147 is external library code; per the spec it
performs "nearest-neighbor search over stored vectors by cosine similarity"
and returns passages "ordered by descending score", truncated to
`similarity_top_k`.  The similarity function is an abstract parameter
(`sim queryVec docVec`); every retrieved node carries its computed score. -/
def retrieve (sim : List ℚ → List ℚ → ℚ) (store : List StoredDoc)
    (queryVec : List ℚ) (topK : ℕ) : List Node :=
  (List.insertionSort scoreGE
    (store.map (fun d => Node.mk d.text d.metadata (some (sim queryVec d.embedding))))).take topK

/-- The state of a `VectorStoreManager`: the lazily built in-memory index
and the persistent ChromaDB collection it mirrors (`collection.count()` is
the length of `collectionDocs`). -/
structure VectorStore where
  index : Option (List StoredDoc)
  collectionDocs : List StoredDoc

/-- `vector_store.py` `_load_index` (lines 181-206): when the persistent
collection is empty there is nothing to load and the index stays absent;
otherwise the index is rebuilt from the collection. -/
def loadIndex (vs : VectorStore) : Option (List StoredDoc) :=
  if vs.collectionDocs.length = 0 then none else some vs.collectionDocs

/-- The retrieve / format / filter pipeline of `search`
(`vector_store.py` lines 140-175), run against a loaded index. -/
def runPipeline (s : AppSettings) (sim : List ℚ → List ℚ → ℚ)
    (docs : List StoredDoc) (queryVec : List ℚ) (k : ℕ) : List SearchResult :=
  filterByThreshold s.similarityThreshold (searchResults (retrieve sim docs queryVec k))

/-- `vector_store.py` `search` (lines 106-175): default `top_k`, lazy index
load (returning `[]` when nothing was ever indexed), retrieval, score
defaulting, and the similarity-threshold filter. -/
def VectorStore.search (s : AppSettings) (sim : List ℚ → List ℚ → ℚ)
    (vs : VectorStore) (queryVec : List ℚ) (topK : Option ℕ) : List SearchResult :=
  let k := topK.getD s.topKRetrieval
  match vs.index with
  | some docs => runPipeline s sim docs queryVec k
  | none =>
      match loadIndex vs with
      | none => []
      | some docs => runPipeline s sim docs queryVec k

/-- Fixed-point decimal rendering of a rational, as Python's format spec
`:.2f` renders a float (round half to even, zero-padded fraction). -/
def formatFixed (prec : ℕ) (q : ℚ) : String :=
  let scaled := roundHalfEven (q * 10 ^ prec)
  let sign := if scaled < 0 then "-" else ""
  let n := scaled.natAbs
  let fs := toString (n % 10 ^ prec)
  let pad := String.mk (List.replicate (prec - fs.length) '0')
  sign ++ toString (n / 10 ^ prec) ++ "." ++ pad ++ fs

/-- Python's tail slice `l[-k:]`.  For `k = 0` this is `l[0:]`, the whole
list (not the empty list) — the same edge the Python code inherits. -/
def lastSlice (k : ℕ) (l : List α) : List α :=
  if k = 0 then l else l.drop (l.length - k)

/-- The `Source i: name, Page p / Slide s` header fragment of
`_build_context` (`rag_engine.py` lines 147-152): `page` wins over `slide`. -/
def pageInfo (md : Metadata) : String :=
  match md.page with
  | some p => ", Page " ++ toString p
  | none =>
      match md.slide with
      | some sl => ", Slide " ++ toString sl
      | none => ""

/-- One labeled context block of `_build_context` (lines 154-156). -/
def contextPart (i : ℕ) (doc : SearchResult) : String :=
  "[Source " ++ toString i ++ ": " ++ doc.metadata.source.getD "Unknown" ++
    pageInfo doc.metadata ++ "] (Relevance: " ++ formatFixed 2 doc.score ++ ")\n" ++
    doc.text ++ "\n"

/-- `rag_engine.py` `_build_context` (lines 138-158). -/
def buildContext (docs : List SearchResult) : String :=
  String.intercalate "\n---\n" ((List.enumFrom 1 docs).map (fun p => contextPart p.1 p.2))

/-- The fixed instruction preamble of `_build_prompt` (lines 168-179). -/
def promptPreamble (context : String) : String :=
  "You are a helpful AI assistant that answers questions based ONLY on the provided context.\n\nIMPORTANT RULES:\n1. Answer ONLY using information from the context below\n2. If the context doesn\x27t contain relevant information, say \"I don\x27t have information about that in the uploaded documents\"\n3. Cite sources by mentioning the source name and page/slide number when possible\n4. Be concise but thorough\n\nCONTEXT:\n" ++
    context ++ "\n\n"

/-- The `ROLE: content` rendering of the memory block (lines 184-185). -/
def renderHistory (msgs : List ChatMessage) : String :=
  String.join (msgs.map (fun m => m.role.toUpper ++ ": " ++ m.content ++ "\n"))

/-- `rag_engine.py` `_build_prompt` (lines 160-190): preamble and context,
then (when memory is in use and non-empty) the last `MEMORY_WINDOW * 2`
turns, then the question. -/
def buildPrompt (s : AppSettings) (hist : List ChatMessage)
    (question context : String) (useMemory : Bool) : String :=
  let base := promptPreamble context
  let withMem :=
    if useMemory && !hist.isEmpty then
      base ++ "PREVIOUS CONVERSATION:\n" ++
        renderHistory (lastSlice (s.memoryWindow * 2) hist) ++ "\n"
    else base
  withMem ++ "QUESTION: " ++ question ++ "\n\nANSWER:"

/-- `rag_engine.py` `_update_memory` (lines 192-199): append the user
question and assistant answer, then keep only the most recent
`MEMORY_WINDOW * 2` turns when over the bound. -/
def updateMemory (s : AppSettings) (hist : List ChatMessage)
    (question answer : String) : List ChatMessage :=
  let h := hist ++ [⟨"user", question⟩, ⟨"assistant", answer⟩]
  let maxMessages := s.memoryWindow * 2
  if maxMessages < h.length then lastSlice maxMessages h else h

/-- `rag_engine.py` `_format_sources`, one dict (lines 205-220). -/
def formatSource (doc : SearchResult) : SourceInfo :=
  ⟨doc.metadata.source.getD "Unknown",
   if 200 < doc.text.length then pySlice doc.text 200 ++ "..." else doc.text,
   pyRound 3 doc.score,
   pyRound 1 (doc.score * 100),
   doc.metadata.page,
   doc.metadata.slide⟩

/-- `rag_engine.py` `_format_sources` (lines 201-222). -/
def formatSources (docs : List SearchResult) : List SourceInfo :=
  docs.map formatSource

/-- The canned no-results answer of `query` (line 94). -/
def noRelevantInfoMsg : String :=
  "I couldn\x27t find any relevant information in your documents to answer this question."

/-- `rag_engine.py` `query` (lines 65-136), from the point the retrieved
documents are in hand.  The external LLM is an abstract fallible call
(`prompt → answer` or an exception, per the spec's LLM boundary); every
failure inside the `try` block is converted into a `QueryResult` whose
answer carries the error text, so the function is total.  Returns the
result together with the (possibly updated) conversation history. -/
def queryRAG (s : AppSettings) (retrieved : List SearchResult)
    (llm : String → Except String String) (hist : List ChatMessage)
    (question : String) (useMemory : Bool) : QueryResult × List ChatMessage :=
  if retrieved.isEmpty then
    (⟨noRelevantInfoMsg, [], question⟩, hist)
  else
    let context := buildContext retrieved
    let prompt := buildPrompt s hist question context useMemory
    match llm prompt with
    | Except.error e => (⟨"Error processing query: " ++ e, [], question⟩, hist)
    | Except.ok answer =>
        let newHist := if useMemory then updateMemory s hist question answer else hist
        (⟨answer, formatSources retrieved, question⟩, newHist)

/-- The full transcript of a sequence of question/answer exchanges, as the
turn pairs `_update_memory` appends. -/
def transcript (ps : List (String × String)) : List ChatMessage :=
  ps.flatMap (fun p => [⟨"user", p.1⟩, ⟨"assistant", p.2⟩])

/-- The conversation history after running `_update_memory` for each
question/answer pair in order, starting from empty memory. -/
def runMemory (s : AppSettings) (ps : List (String × String)) : List ChatMessage :=
  ps.foldl (fun h p => updateMemory s h p.1 p.2) []

/-- `embeddings.py`: a zero vector of the configured dimension, the
defined fallback for empty text. -/
def zeroVector (dim : ℕ) : List ℚ :=
  List.replicate dim 0

/-- Python's `t and t.strip()` truthiness test of `get_text_embeddings`
line 113: a text is kept iff it has a non-whitespace character. -/
def isValidText (t : String) : Bool :=
  !(t.data.all Char.isWhitespace)

/-- `embeddings.py` `get_text_embeddings` (lines 91-127): empty input maps
to `[]`; when every text is empty/whitespace the result is one zero vector
per input text; otherwise the underlying model embeds the batch of valid
texts (one vector per valid text, in order — the abstract `embed` stands
for the external model call). -/
def get_text_embeddings (dim : ℕ) (embed : String → List ℚ)
    (texts : List String) : List (List ℚ) :=
  if texts.isEmpty then []
  else
    let valid := texts.filter isValidText
    if valid.isEmpty then List.replicate texts.length (zeroVector dim)
    else valid.map embed

/-- Outcome of `document_comparison.py` `compare_documents`: the four
dict shapes the function can return. -/
inductive CompareOutcome where
  | tooFewRequested : CompareOutcome
  | notFound : String → List String → CompareOutcome
  | comparison : String → List String → String → CompareOutcome
  | compareFailed : String → CompareOutcome
deriving DecidableEq

/-- Python's `repr` of a list of strings, as interpolated into the
"Could not find enough content" error message. -/
def pyStrList (names : List String) : String :=
  "[" ++ String.intercalate ", " (names.map (fun n => "\x27" ++ n ++ "\x27")) ++ "]"

/-- The chunks `compare_documents` attributes to one document: results of
the per-document search (top 20) whose `source` metadata equals the name
(`document_comparison.py` lines 43-50). -/
def docChunks (searchFn : String → ℕ → List SearchResult) (name : String) :
    List SearchResult :=
  (searchFn ("content from document " ++ name) 20).filter
    (fun r => r.metadata.source.getD "" = name)

/-- Whether `compare_documents` finds retrievable content for a name
(the `if doc_chunks:` test, line 52). -/
def foundContent (searchFn : String → ℕ → List SearchResult) (name : String) : Bool :=
  !(docChunks searchFn name).isEmpty

/-- The `doc_contexts` accumulation of `compare_documents` (lines 40-57):
for each requested name, the top-5 matching chunks joined into one context
string, skipping names with no content.  Python keys these by name in an
insertion-ordered dict; for distinct requested names (the theorems assume
`Nodup`, matching the contract's "set of filenames") the ordered
association list below is that dict. -/
def docContexts (searchFn : String → ℕ → List SearchResult)
    (docNames : List String) : List (String × String) :=
  docNames.filterMap (fun name =>
    if (docChunks searchFn name).isEmpty then none
    else some (name,
      String.intercalate "\n\n" (((docChunks searchFn name).take 5).map (fun c => c.text))))

/-- The aspect instruction table of `_build_comparison_prompt`
(lines 101-111); unknown aspects fall back to "general". -/
def aspectInstruction (aspect : String) : String :=
  if aspect = "general" then "Compare the overall content, themes, and main points"
  else if aspect = "methodology" then "Compare the methodologies, approaches, and techniques used"
  else if aspect = "findings" then "Compare the key findings, results, and conclusions"
  else if aspect = "structure" then "Compare the structure, organization, and format"
  else if aspect = "tone" then "Compare the writing style, tone, and intended audience"
  else if aspect = "timeline" then "Compare any dates, timelines, or chronological aspects"
  else if aspect = "authors" then "Compare authorship, credentials, and perspectives"
  else "Compare the overall content, themes, and main points"

/-- `document_comparison.py` `_build_comparison_prompt` (lines 95-136):
instruction, fixed output template, per-document sections, and each
document's context truncated to its first 1500 characters. -/
def buildComparisonPrompt (ctxs : List (String × String)) (aspect : String) : String :=
  "You are comparing multiple documents. " ++ aspectInstruction aspect ++
    ".\n\nProvide your comparison in this clear format:\n\n**📊 SIMILARITIES:**\n- List all key similarities between the documents\n\n**🔍 DIFFERENCES:**\n- List all notable differences\n\n**📄 UNIQUE TO EACH DOCUMENT:**\n" ++
    String.join (ctxs.map (fun p => "\n**" ++ p.1 ++ ":**\n- Unique aspects or content\n")) ++
    "\n\n---\n\n**DOCUMENT CONTENTS:**\n\n" ++
    String.join (ctxs.map (fun p =>
      "### Document: " ++ p.1 ++ "\n" ++ pySlice p.2 1500 ++ "\n\n---\n\n")) ++
    "\nProvide a detailed, structured comparison following the format above:"

/-- `document_comparison.py` `compare_documents` (lines 15-92): reject
fewer than two requested names; collect per-document contexts; fail with
the list of found documents when fewer than two have content; otherwise
delegate to the (fallible, abstract) LLM call. -/
def compare_documents (llm : String → Except String String)
    (searchFn : String → ℕ → List SearchResult) (docNames : List String)
    (aspect : String) : CompareOutcome :=
  if docNames.length < 2 then
    CompareOutcome.tooFewRequested
  else if (docContexts searchFn docNames).length < 2 then
    CompareOutcome.notFound
      ("Could not find enough content. Found: " ++
        pyStrList ((docContexts searchFn docNames).map Prod.fst))
      ((docContexts searchFn docNames).map Prod.fst)
  else
    match llm (buildComparisonPrompt (docContexts searchFn docNames) aspect) with
    | Except.ok t =>
        CompareOutcome.comparison t ((docContexts searchFn docNames).map Prod.fst) aspect
    | Except.error e =>
        CompareOutcome.compareFailed ("Failed to generate comparison: " ++ e)

/-- The retrieval stage returns nodes pairwise non-increasing in
(defaulted) score. -/
lemma retrieve_pairwise (sim : List ℚ → List ℚ → ℚ) (store : List StoredDoc)
    (queryVec : List ℚ) (topK : ℕ) :
    (retrieve sim store queryVec topK).Pairwise scoreGE := by
  exact ((List.sorted_insertionSort scoreGE _).sublist (List.take_sublist _ _))

/-- The full format-and-filter pipeline keeps results pairwise
non-increasing in score. -/
lemma pipeline_pairwise (threshold : ℚ) (nodes : List Node)
    (h : nodes.Pairwise scoreGE) :
    (filterByThreshold threshold (searchResults nodes)).Pairwise
      (fun a b => b.score ≤ a.score) := by
  have hmap : (searchResults nodes).Pairwise (fun a b => b.score ≤ a.score) := by
    rw [searchResults, List.pairwise_map]
    exact h
  exact hmap.sublist (List.filter_sublist _)

/-- Every result surviving the filter has score at least the threshold. -/
lemma pipeline_threshold (threshold : ℚ) (nodes : List Node) :
    ∀ r ∈ filterByThreshold threshold (searchResults nodes), threshold ≤ r.score := by
  intro r hr
  have := List.of_mem_filter hr
  simpa using this

/-- The pipeline behind `search` is sorted and threshold-filtered. -/
lemma runPipeline_ok (s : AppSettings) (sim : List ℚ → List ℚ → ℚ)
    (docs : List StoredDoc) (queryVec : List ℚ) (k : ℕ) :
    (runPipeline s sim docs queryVec k).Pairwise (fun a b => b.score ≤ a.score) ∧
      ∀ r ∈ runPipeline s sim docs queryVec k, s.similarityThreshold ≤ r.score :=
  ⟨pipeline_pairwise _ _ (retrieve_pairwise sim docs queryVec k),
   pipeline_threshold _ _⟩

/-- The pipeline never returns more results than the requested `top_k`. -/
lemma runPipeline_length_le (s : AppSettings) (sim : List ℚ → List ℚ → ℚ)
    (docs : List StoredDoc) (queryVec : List ℚ) (k : ℕ) :
    (runPipeline s sim docs queryVec k).length ≤ k := by
  calc (runPipeline s sim docs queryVec k).length
      ≤ (searchResults (retrieve sim docs queryVec k)).length :=
        List.length_filter_le _ _
    _ = (retrieve sim docs queryVec k).length := List.length_map _ _
    _ ≤ k := by
        simp [retrieve]

/-- C1: for every query, the result sequence returned by
`VectorStoreManager.search` is non-increasing in score, and no returned
result has a score below the configured similarity threshold. -/
theorem search_sorted_and_above_threshold (s : AppSettings)
    (sim : List ℚ → List ℚ → ℚ) (vs : VectorStore) (queryVec : List ℚ)
    (topK : Option ℕ) :
    (vs.search s sim queryVec topK).Pairwise (fun a b => b.score ≤ a.score) ∧
      ∀ r ∈ vs.search s sim queryVec topK, s.similarityThreshold ≤ r.score := by
  unfold VectorStore.search
  rcases vs.index with _ | docs
  · rcases h : loadIndex vs with _ | docs
    · simp
    · simpa [h] using runPipeline_ok s sim docs queryVec _
  · simpa using runPipeline_ok s sim docs queryVec _

/-- C6: `search` with `top_k = K` returns at most `K` results, and
`search` with `top_k = 0` returns the empty sequence. -/
theorem search_topK_bound (s : AppSettings) (sim : List ℚ → List ℚ → ℚ)
    (vs : VectorStore) (queryVec : List ℚ) (K : ℕ) :
    (vs.search s sim queryVec (some K)).length ≤ K ∧
      vs.search s sim queryVec (some 0) = [] := by
  have hlen : ∀ k : ℕ, (vs.search s sim queryVec (some k)).length ≤ k := by
    intro k
    unfold VectorStore.search
    rcases vs.index with _ | docs
    · rcases h : loadIndex vs with _ | docs
      · simp
      · simpa [h] using runPipeline_length_le s sim docs queryVec k
    · simpa using runPipeline_length_le s sim docs queryVec k
  exact ⟨hlen K, List.eq_nil_of_length_eq_zero (Nat.le_zero.mp (hlen 0))⟩

/-- C5: when no documents were ever indexed (no in-memory index and an
empty persistent collection), `search` returns the empty sequence for
every query and `top_k`; being a total function, it raises no error. -/
theorem search_uninitialized_empty (s : AppSettings)
    (sim : List ℚ → List ℚ → ℚ) (vs : VectorStore)
    (hidx : vs.index = none) (hcol : vs.collectionDocs = [])
    (queryVec : List ℚ) (topK : Option ℕ) :
    vs.search s sim queryVec topK = [] := by
  unfold VectorStore.search
  rw [hidx]
  simp [loadIndex, hcol]

/-- Witness for C5 at a concrete uninitialized store. -/
theorem search_uninitialized_empty_witness :
    VectorStore.search defaultSettings (fun _ _ => 0) ⟨none, []⟩ [] none = [] :=
  search_uninitialized_empty defaultSettings (fun _ _ => 0) ⟨none, []⟩ rfl rfl [] none

/-- C10: a retrieved node whose score is absent is assigned score `1.0`,
and (for any threshold not exceeding `1`, in particular the default `0.5`)
it passes the similarity-threshold filter and is returned with score `1.0`. -/
theorem missing_score_defaults_to_one (threshold : ℚ) (nodes : List Node)
    (n : Node) (hth : threshold ≤ 1) (hn : n ∈ nodes) (hs : n.score = none) :
    (formatNode n).score = 1 ∧
      formatNode n ∈ filterByThreshold threshold (searchResults nodes) := by
  have hscore : (formatNode n).score = 1 := by simp [formatNode, hs]
  refine ⟨hscore, List.mem_filter.mpr ⟨List.mem_map_of_mem formatNode hn, ?_⟩⟩
  simp [hscore, hth]

/-- C8: when retrieval returns no results, `query` returns the canned
"no relevant information" answer with empty sources and leaves the
conversation history untouched; being a total function, it raises no error. -/
theorem query_no_results_returns_canned (s : AppSettings)
    (llm : String → Except String String) (hist : List ChatMessage)
    (question : String) (useMemory : Bool) :
    queryRAG s [] llm hist question useMemory =
      (⟨noRelevantInfoMsg, [], question⟩, hist) := rfl

/-- C2: when the LLM call fails, `query` does not raise: it returns a
`QueryResult` whose answer is the error text prefixed with
"Error processing query: " and whose sources are empty, leaving the
conversation history unchanged. -/
theorem query_llm_failure_returns_error (s : AppSettings)
    (retrieved : List SearchResult) (llm : String → Except String String)
    (hist : List ChatMessage) (question : String) (useMemory : Bool) (e : String)
    (hne : retrieved ≠ [])
    (hfail : llm (buildPrompt s hist question (buildContext retrieved) useMemory) =
      Except.error e) :
    queryRAG s retrieved llm hist question useMemory =
      (⟨"Error processing query: " ++ e, [], question⟩, hist) := by
  cases retrieved with
  | nil => exact absurd rfl hne
  | cons r rest => simp [queryRAG, hfail]

/-- Witness for C2 at a concrete retrieved document and a failing LLM. -/
theorem query_llm_failure_returns_error_witness :
    queryRAG defaultSettings [⟨"chunk", ⟨some "a.txt", none, none⟩, 1⟩]
      (fun _ => Except.error "boom") [] "q" true =
      (⟨"Error processing query: " ++ "boom", [], "q"⟩, []) :=
  query_llm_failure_returns_error defaultSettings
    [⟨"chunk", ⟨some "a.txt", none, none⟩, 1⟩] (fun _ => Except.error "boom")
    [] "q" true "boom" (by simp) rfl

/-- The transcript of `n` exchanges has `2 n` turns. -/
lemma length_transcript (ps : List (String × String)) :
    (transcript ps).length = 2 * ps.length := by
  induction ps with
  | nil => rfl
  | cons p t ih =>
      simp only [transcript, List.flatMap_cons, List.length_append] at ih ⊢
      simp only [List.length_cons, List.length_nil]
      omega

/-- Appending exchanges appends their turns. -/
lemma transcript_append (ps qs : List (String × String)) :
    transcript (ps ++ qs) = transcript ps ++ transcript qs :=
  List.flatMap_append ps qs _

/-- `l[-k:]` is all of `l` when `l` has at most `k` elements. -/
lemma lastSlice_of_length_le {α} (k : ℕ) (l : List α) (h : l.length ≤ k) :
    lastSlice k l = l := by
  unfold lastSlice
  split
  · rfl
  · have h0 : l.length - k = 0 := by omega
    rw [h0, List.drop_zero]

/-- `l[-k:]` is a tail `drop` when `k` is positive. -/
lemma lastSlice_of_ne_zero {α} (k : ℕ) (l : List α) (h : k ≠ 0) :
    lastSlice k l = l.drop (l.length - k) := by
  unfold lastSlice
  rw [if_neg h]

/-- One `_update_memory` step preserves the sliding-window invariant:
starting from the last `min n W * 2` turns of a `2 n`-turn transcript, it
yields the last `min (n+1) W * 2` turns of the extended transcript. -/
lemma updateMemory_snoc (s : AppSettings) (hW : 0 < s.memoryWindow)
    (n : ℕ) (T : List ChatMessage) (hT : T.length = 2 * n) (q a : String) :
    updateMemory s (lastSlice (min n s.memoryWindow * 2) T) q a =
      lastSlice (min (n + 1) s.memoryWindow * 2)
        (T ++ [⟨"user", q⟩, ⟨"assistant", a⟩]) := by
  rcases lt_or_ge n s.memoryWindow with hlt | hge
  · have hmin1 : min n s.memoryWindow = n := min_eq_left (le_of_lt hlt)
    have hmin2 : min (n + 1) s.memoryWindow = n + 1 := min_eq_left (by omega)
    rw [hmin1, hmin2, lastSlice_of_length_le _ _ (by omega),
      lastSlice_of_length_le _ _
        (by simp only [List.length_append, List.length_cons, List.length_nil, hT]; omega)]
    simp only [updateMemory]
    rw [if_neg
      (by simp only [List.length_append, List.length_cons, List.length_nil, hT]; omega)]
  · have hmin1 : min n s.memoryWindow = s.memoryWindow := min_eq_right hge
    have hmin2 : min (n + 1) s.memoryWindow = s.memoryWindow := min_eq_right (by omega)
    rw [hmin1, hmin2]
    have h2W : s.memoryWindow * 2 ≠ 0 := by omega
    have hDlen : (T.drop (T.length - s.memoryWindow * 2)).length = s.memoryWindow * 2 := by
      rw [List.length_drop, hT]
      omega
    rw [lastSlice_of_ne_zero _ _ h2W]
    have step1 : updateMemory s (T.drop (T.length - s.memoryWindow * 2)) q a =
        lastSlice (s.memoryWindow * 2)
          (T.drop (T.length - s.memoryWindow * 2) ++
            ([⟨"user", q⟩, ⟨"assistant", a⟩] : List ChatMessage)) := by
      simp only [updateMemory]
      rw [if_pos (by
        simp only [List.length_append, List.length_cons, List.length_nil, hDlen]
        omega)]
    rw [step1, lastSlice_of_ne_zero _ _ h2W, lastSlice_of_ne_zero _ _ h2W]
    have hlen1 : (T.drop (T.length - s.memoryWindow * 2) ++
        ([⟨"user", q⟩, ⟨"assistant", a⟩] : List ChatMessage)).length -
          s.memoryWindow * 2 = 2 := by
      simp only [List.length_append, List.length_cons, List.length_nil, hDlen]
      omega
    have hlen2 : (T ++ ([⟨"user", q⟩, ⟨"assistant", a⟩] : List ChatMessage)).length -
        s.memoryWindow * 2 = (2 * n + 2) - s.memoryWindow * 2 := by
      simp only [List.length_append, List.length_cons, List.length_nil, hT]
    have harith : (T.length - s.memoryWindow * 2) + 2 = (2 * n + 2) - s.memoryWindow * 2 := by
      rw [hT]
      omega
    rw [hlen1, hlen2,
      List.drop_append_of_le_length (by rw [hDlen]; omega),
      List.drop_append_of_le_length (by omega),
      List.drop_drop, harith]

/-- C3: with memory enabled and a positive window, after `N` successful
exchanges starting from empty memory the conversation history is exactly
the last `min N memoryWindow * 2` turns of the full transcript — so it has
exactly `min N memoryWindow * 2` turns, holds the most recent pair last,
and evicts the oldest turns first. -/
theorem memory_window_invariant (s : AppSettings)
    (ps : List (String × String)) (hW : 0 < s.memoryWindow) :
    runMemory s ps =
        lastSlice (min ps.length s.memoryWindow * 2) (transcript ps) ∧
      (runMemory s ps).length = min ps.length s.memoryWindow * 2 := by
  have main : ∀ qs : List (String × String),
      runMemory s qs = lastSlice (min qs.length s.memoryWindow * 2) (transcript qs) := by
    intro qs
    induction qs using List.reverseRecOn with
    | nil => simp [runMemory, transcript, lastSlice]
    | append_singleton rest p ih =>
        have h1 : runMemory s (rest ++ [p]) = updateMemory s (runMemory s rest) p.1 p.2 := by
          simp [runMemory, List.foldl_append]
        rw [h1, ih, transcript_append]
        have h2 : (rest ++ [p]).length = rest.length + 1 := by simp
        rw [h2]
        exact updateMemory_snoc s hW rest.length (transcript rest)
          (length_transcript rest) p.1 p.2
  refine ⟨main ps, ?_⟩
  rw [main ps]
  rcases Nat.eq_zero_or_pos ps.length with h0 | hpos
  · have hnil : ps = [] := List.length_eq_zero.mp h0
    subst hnil
    simp [transcript, lastSlice]
  · have hne : min ps.length s.memoryWindow * 2 ≠ 0 :=
      Nat.mul_ne_zero (Nat.pos_iff_ne_zero.mp (lt_min hpos hW)) two_ne_zero
    unfold lastSlice
    rw [if_neg hne, List.length_drop, length_transcript]
    have hl := Nat.min_le_left ps.length s.memoryWindow
    have hr := Nat.min_le_right ps.length s.memoryWindow
    omega

/-- Witness for C3: four exchanges against the default window of 3. -/
theorem memory_window_invariant_witness :
    runMemory defaultSettings [("q1", "a1"), ("q2", "a2"), ("q3", "a3"), ("q4", "a4")] =
        lastSlice
          (min ([("q1", "a1"), ("q2", "a2"), ("q3", "a3"), ("q4", "a4")] :
              List (String × String)).length defaultSettings.memoryWindow * 2)
          (transcript [("q1", "a1"), ("q2", "a2"), ("q3", "a3"), ("q4", "a4")]) ∧
      (runMemory defaultSettings
          [("q1", "a1"), ("q2", "a2"), ("q3", "a3"), ("q4", "a4")]).length =
        min ([("q1", "a1"), ("q2", "a2"), ("q3", "a3"), ("q4", "a4")] :
            List (String × String)).length defaultSettings.memoryWindow * 2 :=
  memory_window_invariant defaultSettings
    [("q1", "a1"), ("q2", "a2"), ("q3", "a3"), ("q4", "a4")] (by decide)

/-- A Python character slice has the expected length. -/
lemma pySlice_length (s : String) (n : ℕ) : (pySlice s n).length = min n s.length := by
  show (s.data.take n).length = min n s.data.length
  exact List.length_take n s.data

set_option maxRecDepth 4000 in
/-- Counterexample to C7 as stated: for a 201-character source text the
preview is the 200-character prefix plus `"..."`, 203 characters — more
than 200. -/
theorem preview_length_counterexample :
    ¬ ((formatSource ⟨String.mk (List.replicate 201 'a'),
        ⟨some "d.txt", none, none⟩, 1/2⟩).textPreview.length ≤ 200) := by
  decide

/-- C7 (amended): each formatted source has a `text_preview` of at most
203 characters — the full text when it is at most 200 characters, else its
first 200 characters followed by `"..."` — a score rounded to 3 decimal
places, a `score_percent` equal to score times 100 rounded to 1 decimal
place, the `source` filename, and `page`/`slide` present exactly when the
document's metadata contains them. -/
theorem format_source_fields (doc : SearchResult) :
    (formatSource doc).textPreview.length ≤ 203 ∧
      (formatSource doc).textPreview =
        (if 200 < doc.text.length then pySlice doc.text 200 ++ "..." else doc.text) ∧
      (formatSource doc).score = pyRound 3 doc.score ∧
      (formatSource doc).scorePercent = pyRound 1 (doc.score * 100) ∧
      (formatSource doc).filename = doc.metadata.source.getD "Unknown" ∧
      (formatSource doc).page = doc.metadata.page ∧
      (formatSource doc).slide = doc.metadata.slide := by
  refine ⟨?_, rfl, rfl, rfl, rfl, rfl, rfl⟩
  show (if 200 < doc.text.length then pySlice doc.text 200 ++ "..." else doc.text).length ≤ 203
  by_cases h : 200 < doc.text.length
  · rw [if_pos h, String.length_append, pySlice_length,
      min_eq_left (le_of_lt h), show ("..." : String).length = 3 from rfl]
  · rw [if_neg h]
    omega

/-- C4 at the failing input `["a", ""]`: the batch embedding keeps only
the non-empty text, returning one vector instead of two (no zero-vector
entry for the empty text), for every underlying embedding model. -/
theorem batch_embedding_drops_empty_text (embed : String → List ℚ) :
    (get_text_embeddings 384 embed ["a", ""]).length = 1 ∧
      get_text_embeddings 384 embed ["a", ""] = [embed "a"] :=
  ⟨rfl, rfl⟩

/-- Unfolding `doc_contexts` one requested name at a time. -/
lemma docContexts_cons (searchFn : String → ℕ → List SearchResult)
    (name : String) (rest : List String) :
    docContexts searchFn (name :: rest) =
      (if (docChunks searchFn name).isEmpty then docContexts searchFn rest
       else (name, String.intercalate "\n\n"
          (((docChunks searchFn name).take 5).map (fun c => c.text))) ::
            docContexts searchFn rest) := by
  by_cases h : docChunks searchFn name = []
  · simp [docContexts, List.filterMap_cons, h]
  · simp [docContexts, List.filterMap_cons, h]

/-- The document names with a context are exactly those with content. -/
lemma docContexts_keys (searchFn : String → ℕ → List SearchResult)
    (docNames : List String) :
    (docContexts searchFn docNames).map Prod.fst =
      docNames.filter (foundContent searchFn) := by
  induction docNames with
  | nil => rfl
  | cons name rest ih =>
      rw [docContexts_cons, List.filter_cons]
      by_cases h : docChunks searchFn name = []
      · have hf : foundContent searchFn name = false := by
          simp [foundContent, h]
        rw [if_pos (List.isEmpty_iff.mpr h), hf]
        simpa using ih
      · have hf : foundContent searchFn name = true := by
          simp [foundContent, List.isEmpty_iff, h]
        rw [if_neg (by simp [List.isEmpty_iff, h]), hf]
        simpa using congrArg (List.cons name) ih

/-- C9: with at least two requested document names (distinct, as the
contract's "set of filenames" requires) but retrievable content for fewer
than two of them, `compare_documents` returns the "could not find enough
content" error whose message and `found_docs` list name exactly the
documents for which content was found. -/
theorem compare_documents_insufficient_content
    (llm : String → Except String String)
    (searchFn : String → ℕ → List SearchResult)
    (docNames : List String) (aspect : String)
    (_hnd : docNames.Nodup) (h2 : 2 ≤ docNames.length)
    (hfew : (docNames.filter (foundContent searchFn)).length < 2) :
    compare_documents llm searchFn docNames aspect =
      CompareOutcome.notFound
        ("Could not find enough content. Found: " ++
          pyStrList (docNames.filter (foundContent searchFn)))
        (docNames.filter (foundContent searchFn)) := by
  have hkeys := docContexts_keys searchFn docNames
  have hlen : (docContexts searchFn docNames).length < 2 := by
    have hmap := congrArg List.length hkeys
    rw [List.length_map] at hmap
    omega
  unfold compare_documents
  rw [if_neg (by omega), if_pos hlen, hkeys]

/-- Witness for C9: two requested names, content found only for `a.txt`. -/
theorem compare_documents_insufficient_content_witness :
    compare_documents (fun _ => Except.ok "cmp")
        (fun _ _ => [⟨"alpha text", ⟨some "a.txt", none, none⟩, 1⟩])
        ["a.txt", "b.txt"] "general" =
      CompareOutcome.notFound
        ("Could not find enough content. Found: " ++
          pyStrList (["a.txt", "b.txt"].filter
            (foundContent (fun _ _ => [⟨"alpha text", ⟨some "a.txt", none, none⟩, 1⟩]))))
        (["a.txt", "b.txt"].filter
          (foundContent (fun _ _ => [⟨"alpha text", ⟨some "a.txt", none, none⟩, 1⟩]))) :=
  compare_documents_insufficient_content (fun _ => Except.ok "cmp")
    (fun _ _ => [⟨"alpha text", ⟨some "a.txt", none, none⟩, 1⟩])
    ["a.txt", "b.txt"] "general" (by decide) (by decide) (by decide)

/-- Witness for C10 at a concrete score-less node and the default threshold. -/
theorem missing_score_defaults_to_one_witness :
    (formatNode ⟨"t", ⟨some "a.txt", none, none⟩, none⟩).score = 1 ∧
      formatNode ⟨"t", ⟨some "a.txt", none, none⟩, none⟩ ∈
        filterByThreshold defaultSettings.similarityThreshold
          (searchResults [⟨"t", ⟨some "a.txt", none, none⟩, none⟩]) :=
  missing_score_defaults_to_one defaultSettings.similarityThreshold
    [⟨"t", ⟨some "a.txt", none, none⟩, none⟩] ⟨"t", ⟨some "a.txt", none, none⟩, none⟩
    (by norm_num [defaultSettings]) (List.mem_singleton.mpr rfl) rfl

end SecondBrain
